import Mathlib

/-!
Verification of the bot-backend repository (server.js, filesystem and
Postgres key-value variants) against its natural-language specification.

The JavaScript source is shallowly embedded:
* JSON documents are association lists `List (String × α)` with JS-object
  semantics (assignment overwrites the key in place, `delete` removes it);
* JS falsiness of the strings that flow through `||` and `if (x)` guards is
  modelled explicitly (`""` is the only falsy string that can occur there);
* `Date.now()` is passed in as an explicit `now : Nat` parameter;
* request handlers become pure functions from the parsed documents to a
  response together with the documents after the handler's writes.
-/

namespace BotBackend

/-- JSON values as stored in the documents.  Numbers are modelled as `Int`:
every numeric value the server itself writes (timestamps, `maxLen`, `order`)
is an integer. Object fields are an ordered association list, as produced by
`JSON.parse`. -/
inductive Json where
  | null
  | bool (b : Bool)
  | num (n : Int)
  | str (s : String)
  | arr (xs : List Json)
  | obj (fields : List (String × Json))
deriving Repr

/-- JS truthiness of a JSON value (`undefined` is represented by `Option`
at the use sites, not here). -/
def Json.truthy : Json → Bool
  | .null => false
  | .bool b => b
  | .num n => n != 0
  | .str s => s != ""
  | .arr _ => true
  | .obj _ => true

/-! ### JS-object primitives

`getKey`, `setKey`, `delKey` model `o[k]`, `o[k] = v` and `delete o[k]` on a
plain JS object whose own enumerable keys are the list's keys (JS objects
never hold duplicate keys, and all the documents below are built only through
these primitives). -/

def getKey (doc : List (String × α)) (k : String) : Option α :=
  match doc with
  | [] => none
  | (k₁, v) :: rest => if k₁ == k then some v else getKey rest k

def setKey (doc : List (String × α)) (k : String) (v : α) : List (String × α) :=
  match doc with
  | [] => [(k, v)]
  | (k₁, v₁) :: rest => if k₁ == k then (k, v) :: rest else (k₁, v₁) :: setKey rest k v

def delKey (doc : List (String × α)) (k : String) : List (String × α) :=
  match doc with
  | [] => []
  | (k₁, v₁) :: rest => if k₁ == k then rest else (k₁, v₁) :: delKey rest k

theorem getKey_setKey_self (doc : List (String × α)) (k : String) (v : α) :
    getKey (setKey doc k v) k = some v := by
  induction doc with
  | nil => simp [getKey, setKey]
  | cons hd tl ih =>
    obtain ⟨k₁, v₁⟩ := hd
    by_cases h : k₁ = k
    · simp [getKey, setKey, h]
    · simp [getKey, setKey, h, ih]

theorem getKey_setKey_ne (doc : List (String × α)) {k h : String} (v : α)
    (hne : h ≠ k) : getKey (setKey doc k v) h = getKey doc h := by
  induction doc with
  | nil => simp [getKey, setKey, hne.symm]
  | cons hd tl ih =>
    obtain ⟨k₁, v₁⟩ := hd
    by_cases hk : k₁ = k
    · subst hk
      simp [getKey, setKey, hne.symm]
    · simp [getKey, setKey, hk, ih]

theorem getKey_delKey_ne (doc : List (String × α)) {k h : String}
    (hne : h ≠ k) : getKey (delKey doc k) h = getKey doc h := by
  induction doc with
  | nil => simp [getKey, delKey]
  | cons hd tl ih =>
    obtain ⟨k₁, v₁⟩ := hd
    by_cases hk : k₁ = k
    · subst hk
      simp [getKey, delKey, hne.symm]
    · simp [getKey, delKey, hk, ih]

theorem delKey_setKey_absent (doc : List (String × α)) {k : String} (v : α)
    (habs : getKey doc k = none) : delKey (setKey doc k v) k = doc := by
  induction doc with
  | nil => simp [setKey, delKey]
  | cons hd tl ih =>
    obtain ⟨k₁, v₁⟩ := hd
    by_cases hk : k₁ = k
    · simp [getKey, hk] at habs
    · simp [getKey, hk] at habs
      simp [setKey, delKey, hk, ih habs]

/-! ### Publish coordinator

`setPublishFlag` / `consumePublishFlag` / `peekPublishFlag` embed the three
helpers that appear, with identical logic, in both the filesystem variant and
the Postgres variant of server.js.  The `publish_flags.json` document is a
guildId-keyed object of `{ requestedAt, byUser }` records.  A handler is a
function from the document read by `readJSON(publishFile, {})` to its result
together with the document written back (unchanged when the source performs
no `writeJSON`, as in `peekPublishFlag`). -/

/-- The record `{ requestedAt: Date.now(), byUser }` stored in publish_flags.json. -/
structure PublishInfo where
  requestedAt : Nat
  byUser : Option String
deriving Repr, DecidableEq

abbrev PublishDoc := List (String × PublishInfo)

/-- Embeds `x || null` on an optional string (the only falsy string is `""`;
`none` stands for `undefined`/`null`). -/
def orNullStr (o : Option String) : Option String :=
  match o with
  | some s => if s == "" then none else some s
  | none => none

/-- Result shape of the consume/peek helpers: `{ pending, info? }`.
`info := none` models both an absent `info` field (`{ pending:false }`) and
`info: null`. -/
structure PublishResult where
  pending : Bool
  info : Option PublishInfo
deriving Repr, DecidableEq

/-- Embeds `setPublishFlag(guildId, byUser)`:
`all[guildId] = { requestedAt: Date.now(), byUser: byUser || null }`. -/
def setPublishFlag (doc : PublishDoc) (guildId : String) (byUser : Option String)
    (now : Nat) : PublishDoc :=
  setKey doc guildId { requestedAt := now, byUser := orNullStr byUser }

/-- Embeds `consumePublishFlag(guildId)`: read the flag; when present, delete it and
return `{ pending:true, info:val }`; otherwise `{ pending:false }` leaving the
document untouched. -/
def consumePublishFlag (doc : PublishDoc) (guildId : String) :
    PublishResult × PublishDoc :=
  match getKey doc guildId with
  | some val => ({ pending := true, info := some val }, delKey doc guildId)
  | none => ({ pending := false, info := none }, doc)

/-- Embeds `peekPublishFlag(guildId)`: `{ pending: !!all[guildId], info: all[guildId] || null }`;
the source performs no `writeJSON`, so the document is returned unchanged. -/
def peekPublishFlag (doc : PublishDoc) (guildId : String) :
    PublishResult × PublishDoc :=
  ({ pending := (getKey doc guildId).isSome, info := getKey doc guildId }, doc)

/-- C2: starting with no pending flag for `g`, `request(g,"alice")` then
`peek(g)` reports `pending:true` with `byUser = "alice"` and leaves the
document unchanged; the subsequent `consume(g)` returns the same stored info
and removes the entry (the document reverts to the one with no flag for `g`);
a second `consume(g)` returns `{pending:false}` and changes nothing. -/
theorem publish_handshake (doc : PublishDoc) (g : String) (t : Nat)
    (habs : getKey doc g = none) :
    peekPublishFlag (setPublishFlag doc g (some ("alice")) t) g =
      ({ pending := true,
         info := some { requestedAt := t, byUser := some ("alice") } },
       setPublishFlag doc g (some ("alice")) t) ∧
    consumePublishFlag (setPublishFlag doc g (some ("alice")) t) g =
      ({ pending := true,
         info := some { requestedAt := t, byUser := some ("alice") } }, doc) ∧
    consumePublishFlag doc g = ({ pending := false, info := none }, doc) := by
  have hset : getKey (setPublishFlag doc g (some ("alice")) t) g =
      some { requestedAt := t, byUser := some ("alice") } := by
    simpa [setPublishFlag, orNullStr] using
      getKey_setKey_self doc g
        (⟨t, orNullStr (some ("alice"))⟩ : PublishInfo)
  refine ⟨?_, ?_, ?_⟩
  · simp [peekPublishFlag, hset]
  · simp only [consumePublishFlag, hset]
    refine Prod.ext rfl ?_
    simpa [setPublishFlag, orNullStr] using
      delKey_setKey_absent doc
        ({ requestedAt := t, byUser := some ("alice") } : PublishInfo) habs
  · simp [consumePublishFlag, habs]

/-- C2 witness at a concrete document and guild. -/
theorem publish_handshake_witness :
    peekPublishFlag (setPublishFlag [(("h"), ⟨5, none⟩)] ("g1") (some ("alice")) 7) ("g1") =
      ({ pending := true,
         info := some { requestedAt := 7, byUser := some ("alice") } },
       setPublishFlag [(("h"), ⟨5, none⟩)] ("g1") (some ("alice")) 7) ∧
    consumePublishFlag (setPublishFlag [(("h"), ⟨5, none⟩)] ("g1") (some ("alice")) 7) ("g1") =
      ({ pending := true,
         info := some { requestedAt := 7, byUser := some ("alice") } },
       [(("h"), ⟨5, none⟩)]) ∧
    consumePublishFlag [(("h"), ⟨5, none⟩)] ("g1") =
      ({ pending := false, info := none }, [(("h"), ⟨5, none⟩)]) :=
  publish_handshake [(("h"), ⟨5, none⟩)] ("g1") 7 (by decide)

/-- C4: a second `request` overwrites the pending flag (no queueing): after
`request(g,"a")` at `t₁` then `request(g,"b")` at `t₂`, `consume(g)` returns
`byUser = "b"` with the refreshed timestamp `t₂`. -/
theorem publish_overwrite (doc : PublishDoc) (g : String) (t₁ t₂ : Nat) :
    (consumePublishFlag (setPublishFlag (setPublishFlag doc g (some ("a")) t₁)
        g (some ("b")) t₂) g).1 =
      { pending := true, info := some { requestedAt := t₂, byUser := some ("b") } } := by
  have hset : getKey (setPublishFlag (setPublishFlag doc g (some ("a")) t₁)
      g (some ("b")) t₂) g = some { requestedAt := t₂, byUser := some ("b") } := by
    simpa [setPublishFlag, orNullStr] using
      getKey_setKey_self (setPublishFlag doc g (some ("a")) t₁) g
        (⟨t₂, orNullStr (some ("b"))⟩ : PublishInfo)
  simp [consumePublishFlag, hset]

/-- C10: the publish operations on guild `g` do not touch the entry of any
other guild `h` — `request`, `consume` and `peek` all preserve
`publish_flags[h]` for `h ≠ g`. -/
theorem publish_frame (doc : PublishDoc) (g h : String) (u : Option String)
    (t : Nat) (hne : h ≠ g) :
    getKey (setPublishFlag doc g u t) h = getKey doc h ∧
    getKey (consumePublishFlag doc g).2 h = getKey doc h ∧
    getKey (peekPublishFlag doc g).2 h = getKey doc h := by
  refine ⟨getKey_setKey_ne doc _ hne, ?_, rfl⟩
  unfold consumePublishFlag
  cases hval : getKey doc g with
  | none => rfl
  | some val => simpa using getKey_delKey_ne doc hne

/-- C10 witness at concrete distinct guilds. -/
theorem publish_frame_witness :
    getKey (setPublishFlag [(("h"), ⟨3, some ("u")⟩)] ("g") (some ("v")) 9) ("h") =
      getKey [(("h"), (⟨3, some ("u")⟩ : PublishInfo))] ("h") ∧
    getKey (consumePublishFlag [(("h"), ⟨3, some ("u")⟩)] ("g")).2 ("h") =
      getKey [(("h"), (⟨3, some ("u")⟩ : PublishInfo))] ("h") ∧
    getKey (peekPublishFlag [(("h"), ⟨3, some ("u")⟩)] ("g")).2 ("h") =
      getKey [(("h"), (⟨3, some ("u")⟩ : PublishInfo))] ("h") :=
  publish_frame [(("h"), ⟨3, some ("u")⟩)] ("g") ("h") (some ("v")) 9 (by decide)

/-! ### Entities

Records as documented by the comments next to the file names in server.js:
`users.json: [{id,username,passHash,isAdmin}]`,
`bots.json: [{id,name,apiKey,ownerUserId,discordAppId?,token?}]`,
`guilds.json: [{guildId,botId,name,icon,lastSeen}]`. -/

structure User where
  id : String
  username : String
  passHash : String
  isAdmin : Bool
deriving Repr, DecidableEq

/-- Field `token := none` models a record with no `token` field (or `token: null`);
`safeBotView` removes the field either way. -/
structure Bot where
  id : String
  name : String
  apiKey : String
  ownerUserId : Option String
  discordAppId : Option String
  token : Option String
deriving Repr, DecidableEq

structure Guild where
  guildId : String
  botId : String
  name : String
  icon : Option String
  lastSeen : Nat
deriving Repr, DecidableEq

/-- The JWT payload attached to a session request: `{uid, username, isAdmin}`. -/
structure SessionUser where
  uid : String
  username : String
  isAdmin : Bool
deriving Repr, DecidableEq

/-- A bot record after `const \x7b token, ...rest \x7d = b`: every field except
`token`. -/
structure SafeBotView where
  id : String
  name : String
  apiKey : String
  ownerUserId : Option String
  discordAppId : Option String
deriving Repr, DecidableEq

/-- Embeds `safeBotView(b)`: it drops exactly the `token` field. -/
def safeBotView (b : Bot) : SafeBotView :=
  { id := b.id, name := b.name, apiKey := b.apiKey,
    ownerUserId := b.ownerUserId, discordAppId := b.discordAppId }

/-! ### Ownership gate (`ensureOwner`) -/

/-- Outcome of the `ensureOwner` middleware: the two 404 responses, the 403,
or falling through to the guarded handler (`next()`). -/
inductive OwnerGate where
  | notFoundGuild
  | notFoundBot
  | forbidden
  | allowed
deriving Repr, DecidableEq

/-- Embeds `ensureOwner` (identical logic in both variants): look up the guild
binding, then the bound bot, then pass iff the caller is admin or owns the
bot (`b.ownerUserId !== me.uid` with `ownerUserId` possibly null). -/
def ensureOwner (guilds : List Guild) (bots : List Bot) (me : SessionUser)
    (guildId : String) : OwnerGate :=
  match guilds.find? (fun x => x.guildId == guildId) with
  | none => .notFoundGuild
  | some g =>
    match bots.find? (fun x => x.id == g.botId) with
    | none => .notFoundBot
    | some b =>
      if !me.isAdmin && !(b.ownerUserId == some me.uid) then .forbidden
      else .allowed

/-- C3: characterization of the owner-or-admin gate.  No guild binding gives
NotFound (guild); a binding whose bot is missing gives NotFound (bot); with
both present the request proceeds iff the caller is admin or is the bot's
owner, and is Forbidden otherwise. -/
theorem ensureOwner_gate (guilds : List Guild) (bots : List Bot)
    (me : SessionUser) (guildId : String) :
    (guilds.find? (fun x => x.guildId == guildId) = none →
      ensureOwner guilds bots me guildId = .notFoundGuild) ∧
    (∀ g, guilds.find? (fun x => x.guildId == guildId) = some g →
      (bots.find? (fun x => x.id == g.botId) = none →
        ensureOwner guilds bots me guildId = .notFoundBot) ∧
      (∀ b, bots.find? (fun x => x.id == g.botId) = some b →
        (ensureOwner guilds bots me guildId = .allowed ↔
          (me.isAdmin = true ∨ b.ownerUserId = some me.uid)) ∧
        (ensureOwner guilds bots me guildId = .forbidden ↔
          (me.isAdmin = false ∧ b.ownerUserId ≠ some me.uid)))) := by
  refine ⟨fun hg => by simp [ensureOwner, hg], fun g hg => ?_⟩
  refine ⟨fun hb => by simp [ensureOwner, hg, hb], fun b hb => ?_⟩
  simp only [ensureOwner, hg, hb]
  cases hadm : me.isAdmin with
  | true => simp [hadm]
  | false =>
    by_cases hown : b.ownerUserId = some me.uid
    · simp [hown]
    · simp [hown]

/-- C3 witness: with one guild bound to one bot owned by `u1`, the session
user `u1` (non-admin) passes the gate. -/
theorem ensureOwner_gate_witness :
    ensureOwner
      [{ guildId := ("g1"), botId := ("b1"), name := ("Guild"), icon := none,
         lastSeen := 0 }]
      [{ id := ("b1"), name := ("Helper"), apiKey := ("k"),
         ownerUserId := some ("u1"), discordAppId := none, token := none }]
      { uid := ("u1"), username := ("alice"), isAdmin := false } ("g1") =
      .allowed :=
  (((ensureOwner_gate
      [{ guildId := ("g1"), botId := ("b1"), name := ("Guild"), icon := none,
         lastSeen := 0 }]
      [{ id := ("b1"), name := ("Helper"), apiKey := ("k"),
         ownerUserId := some ("u1"), discordAppId := none, token := none }]
      { uid := ("u1"), username := ("alice"), isAdmin := false } ("g1")).2
    { guildId := ("g1"), botId := ("b1"), name := ("Guild"), icon := none,
      lastSeen := 0 } (by decide)).2
    { id := ("b1"), name := ("Helper"), apiKey := ("k"),
      ownerUserId := some ("u1"), discordAppId := none, token := none }
    (by decide)).1.mpr (Or.inr (by decide))

/-! ### Admin export (`GET /api/admin/export`)

The parsed contents of the seven persisted documents, as the export handler
reads them. -/

structure Store where
  users : List User
  bots : List Bot
  guilds : List Guild
  roles : List (String × Json)
  channels : List (String × Json)
  configs : List (String × Json)
  publishFlags : List (String × PublishInfo)

/-- Export payload of the filesystem variant: the `bots` field is
`readJSON(botsFile, [])` verbatim — `safeBotView` is NOT applied there. -/
structure ExportPayloadFs where
  users : List User
  bots : List Bot
  guilds : List Guild
  roles : List (String × Json)
  channels : List (String × Json)
  configs : List (String × Json)
  publish_flags : List (String × PublishInfo)

/-- Export payload of the Postgres variant: there the `bots` field is
`(await readJSON(botsFile, [])).map(safeBotView)`. -/
structure ExportPayloadPg where
  users : List User
  bots : List SafeBotView
  guilds : List Guild
  roles : List (String × Json)
  channels : List (String × Json)
  configs : List (String × Json)
  publish_flags : List (String × PublishInfo)

/-- Embeds `GET /api/admin/export`, filesystem variant (server.js lines 329–340). -/
def adminExportFs (st : Store) : ExportPayloadFs :=
  { users := st.users, bots := st.bots, guilds := st.guilds,
    roles := st.roles, channels := st.channels, configs := st.configs,
    publish_flags := st.publishFlags }

/-- Embeds `GET /api/admin/export`, Postgres variant (token stripped via
`safeBotView`). -/
def adminExportPg (st : Store) : ExportPayloadPg :=
  { users := st.users, bots := st.bots.map safeBotView, guilds := st.guilds,
    roles := st.roles, channels := st.channels, configs := st.configs,
    publish_flags := st.publishFlags }

/-- A store whose bots document holds one credential carrying a token. -/
def leakStore : Store :=
  { users := [],
    bots := [{ id := ("b1"), name := ("Helper"), apiKey := ("k1"),
               ownerUserId := none, discordAppId := none,
               token := some ("super-secret-token") }],
    guilds := [], roles := [], channels := [], configs := [],
    publishFlags := [] }

/-- C1 (refuting evaluation): the filesystem variant's admin export returns
the bots collection with the `token` field intact — the response contains
`token = "super-secret-token"` — while the Postgres variant of the same
endpoint strips it via `safeBotView`. -/
theorem adminExport_leaks_token :
    ((adminExportFs leakStore).bots.map Bot.token) = [some ("super-secret-token")] ∧
    (adminExportPg leakStore).bots =
      [{ id := ("b1"), name := ("Helper"), apiKey := ("k1"),
         ownerUserId := none, discordAppId := none }] := by
  exact ⟨rfl, rfl⟩

/-! ### Guild configuration -/

/-- Embeds `defaultConfig()` — the literal default configuration object, identical
in both variants of server.js. -/
def defaultConfig : Json :=
  .obj
    [ (("brand"), .obj
        [ (("name"), .str ("Service Bot")),
          (("icon"), .str ("https://i.imgur.com/S2hhXYT.png")) ]),
      (("panel"), .obj
        [ (("bannerUrl"), .str ("https://i.imgur.com/hc282wH.png")),
          (("theme"), .obj
            [ (("bg"), .str ("#0f0f10")),
              (("accent"), .str ("#6e57ff")),
              (("text"), .str ("#ffffff")) ]),
          (("title"), .str ("Panel de Tickets")),
          (("layout"), .str ("list")) ]),
      (("channels"), .obj
        [ (("panelChannelId"), .null),
          (("logChannelId"), .null),
          (("ratingsChannelId"), .null) ]),
      (("buttons"), .arr
        [ .obj
            [ (("id"), .str ("ticket_general")),
              (("title"), .str ("Soporte General")),
              (("subtitle"), .str ("Ayuda en general.")),
              (("label"), .str ("💬 Soporte")),
              (("emoji"), .str ("💬")),
              (("order"), .num 1),
              (("visible"), .bool true) ] ]),
      (("forms"), .obj
        [ (("ticket_general"), .obj
            [ (("title"), .str ("Formulario")),
              (("fields"), .arr
                [ .obj
                    [ (("type"), .str ("short")),
                      (("id"), .str ("usuario")),
                      (("label"), .str ("¿Nombre de usuario?")),
                      (("placeholder"), .str ("Tu nick")),
                      (("required"), .bool true),
                      (("maxLen"), .num 100) ],
                  .obj
                    [ (("type"), .str ("paragraph")),
                      (("id"), .str ("problema")),
                      (("label"), .str ("Problema")),
                      (("placeholder"), .str ("Describe tu situación")),
                      (("required"), .bool true),
                      (("maxLen"), .num 1000) ] ]) ]) ]),
      (("permissions"), .obj
        [ (("staffRoleId"), .null),
          (("highStaffRoleId"), .null),
          (("buycraftRoleId"), .null),
          (("commands"), .obj
            [ (("reiniciarreclamos"), .str ("highStaff")),
              (("reclamos"), .str ("staff")) ]) ]),
      (("misc"), .obj
        [ (("tiendaUrl"), .str ("tienda.com")),
          (("serverIp"), .str ("Server.net")) ]) ]

/-- Embeds `x || d` on an optional JSON value (`none` stands for an absent key). -/
def jsOr (v : Option Json) (d : Json) : Json :=
  match v with
  | some x => if x.truthy then x else d
  | none => d

/-- Embeds `GET /api/bot/guilds/:guildId/config`:
`res.json(cfgs[guildId] || defaultConfig())`.  The handler performs no
`writeJSON`, so the guild-configs document is returned unchanged. -/
def getBotGuildConfig (cfgs : List (String × Json)) (guildId : String) :
    Json × List (String × Json) :=
  (jsOr (getKey cfgs guildId) defaultConfig, cfgs)

/-- Embeds `GET /api/guilds/:guildId/config` (panel view, behind `ensureOwner`):
the same read, also with no write. -/
def getPanelGuildConfig (cfgs : List (String × Json)) (guildId : String) :
    Json × List (String × Json) :=
  (jsOr (getKey cfgs guildId) defaultConfig, cfgs)

/-- C5: a config read for a guild with no stored entry returns exactly the
default configuration (bot view and panel view alike), and the guild-configs
document afterwards still has no entry for that guild. -/
theorem config_fallback (cfgs : List (String × Json)) (g : String)
    (habs : getKey cfgs g = none) :
    getBotGuildConfig cfgs g = (defaultConfig, cfgs) ∧
    getPanelGuildConfig cfgs g = (defaultConfig, cfgs) ∧
    getKey (getBotGuildConfig cfgs g).2 g = none ∧
    getKey (getPanelGuildConfig cfgs g).2 g = none := by
  refine ⟨?_, ?_, habs, habs⟩ <;>
    simp [getBotGuildConfig, getPanelGuildConfig, jsOr, habs]

/-- C5 witness: a guild-configs document holding another guild's config but
no entry for `g1`. -/
theorem config_fallback_witness :
    getBotGuildConfig [(("g2"), Json.obj [])] ("g1") =
      (defaultConfig, [(("g2"), Json.obj [])]) ∧
    getPanelGuildConfig [(("g2"), Json.obj [])] ("g1") =
      (defaultConfig, [(("g2"), Json.obj [])]) ∧
    getKey (getBotGuildConfig [(("g2"), Json.obj [])] ("g1")).2 ("g1") = none ∧
    getKey (getPanelGuildConfig [(("g2"), Json.obj [])] ("g1")).2 ("g1") = none :=
  config_fallback [(("g2"), Json.obj [])] ("g1") rfl

/-! ### Document store backends

A backend state maps document names to the JSON value a read would parse.
The filesystem backend stores `JSON.stringify(v, null, 2)` in a file and
parses it back; the Postgres backend stores `JSON.stringify(v)::jsonb` in the
`files` table and returns the row's `data`.  In both cases serializing and
re-parsing a JSON document value is the identity, so the embedding keeps the
parsed value itself as the stored content. -/

abbrev DocStore := List (String × Json)

/-- Filesystem `readJSON(name, fallback)`: if the file is absent, first write
the fallback to it, then read and parse (yielding the fallback); otherwise
parse the existing content. -/
def fsReadJSON (st : DocStore) (name : String) (fallback : Json) :
    Json × DocStore :=
  match getKey st name with
  | some v => (v, st)
  | none => (fallback, setKey st name fallback)

/-- Filesystem `writeJSON(name, val)`: overwrite the file with the
serialization of `val`. -/
def fsWriteJSON (st : DocStore) (name : String) (v : Json) : DocStore :=
  setKey st name v

/-- Postgres `readJSON(name, fallback)`: return the row's `data` when the row
exists; otherwise `INSERT ... ON CONFLICT (name) DO NOTHING` the fallback and
return the fallback. -/
def pgReadJSON (st : DocStore) (name : String) (fallback : Json) :
    Json × DocStore :=
  match getKey st name with
  | some v => (v, st)
  | none => (fallback, setKey st name fallback)

/-- Postgres `writeJSON(name, val)`:
`INSERT ... ON CONFLICT (name) DO UPDATE SET data=$2::jsonb` — last write
wins, replacing the whole row. -/
def pgWriteJSON (st : DocStore) (name : String) (v : Json) : DocStore :=
  setKey st name v

/-- C7: writing a document and reading it back returns the written value
unchanged, in both backends, for any store, name, value and fallback; and
the write fully replaces the previous content (the stored document after the
write is exactly the written value). -/
theorem document_roundtrip (st : DocStore) (name : String) (x fallback : Json) :
    (fsReadJSON (fsWriteJSON st name x) name fallback).1 = x ∧
    (pgReadJSON (pgWriteJSON st name x) name fallback).1 = x ∧
    getKey (fsWriteJSON st name x) name = some x ∧
    getKey (pgWriteJSON st name x) name = some x := by
  have h := getKey_setKey_self st name x
  exact ⟨by simp [fsReadJSON, fsWriteJSON, h], by simp [pgReadJSON, pgWriteJSON, h],
    h, h⟩

/-! ### Storage failures

`failures` maps a document name to the message of the error the underlying
storage call (file read / `pool.query`) throws for it. -/

/-- Filesystem `readJSON` with the underlying file operations possibly
throwing: the whole body is wrapped in `try ... catch \x7b return fallback \x7d`,
so a throwing read yields the fallback with no error signal. -/
def fsReadJSONF (failures : List (String × String)) (st : DocStore)
    (name : String) (fallback : Json) : Json × DocStore :=
  match getKey failures name with
  | some _ => (fallback, st)
  | none => fsReadJSON st name fallback

/-- The error objects reaching the Postgres variant's error middleware:
`err.status` (absent on storage errors) and `err.message`. -/
structure AppError where
  status : Option Nat
  message : Option String
deriving Repr, DecidableEq

/-- Postgres `readJSON` with `pool.query` possibly rejecting: there is no
catch in the helper, so the rejection propagates (through `wrap`'s
`.catch(next)`) as an error. -/
def pgReadJSONE (failures : List (String × String)) (st : DocStore)
    (name : String) (fallback : Json) : Except AppError (Json × DocStore) :=
  match getKey failures name with
  | some msg => .error { status := none, message := some msg }
  | none => .ok (pgReadJSON st name fallback)

/-- The JSON response produced by the error middleware. -/
structure ErrResponse where
  status : Nat
  error : String
deriving Repr, DecidableEq

/-- The Postgres variant's error middleware:
`res.status(err.status || 500).json(\x7b error: err.message || "Internal error" \x7d)`. -/
def errorHandler (e : AppError) : ErrResponse :=
  { status := e.status.getD 500, error := e.message.getD ("Internal error") }

/-- C8 counterexample: in the filesystem variant, a read whose underlying
file operation throws is NOT surfaced as an Internal error — it is silently
replaced by the fallback value.  At this concrete input the stored users
document is non-empty, the read fails, and the caller receives the empty
fallback array with no error signal and the store untouched. -/
theorem storage_failure_swallowed :
    fsReadJSONF [(("users.json"), ("EACCES: permission denied"))]
        [(("users.json"), Json.arr [Json.str ("u1")])]
        ("users.json") (Json.arr []) =
      (Json.arr [], [(("users.json"), Json.arr [Json.str ("u1")])]) := rfl

/-- C8 (amended): in the Postgres variant a failing storage call propagates
as an error that the error middleware turns into an HTTP 500 response (no
retry, no fallback); in the filesystem variant a failing read is caught and
replaced by the fallback value, with no error surfaced. -/
theorem storage_failure_surfacing (failures : List (String × String))
    (st : DocStore) (name : String) (fallback : Json) (msg : String)
    (hfail : getKey failures name = some msg) :
    (∃ e, pgReadJSONE failures st name fallback = .error e ∧
      (errorHandler e).status = 500) ∧
    fsReadJSONF failures st name fallback = (fallback, st) := by
  refine ⟨⟨{ status := none, message := some msg }, ?_, rfl⟩, ?_⟩ <;>
    simp [pgReadJSONE, fsReadJSONF, hfail]

/-- C8 witness at a concrete failing read. -/
theorem storage_failure_surfacing_witness :
    (∃ e, pgReadJSONE [(("users.json"), ("connection refused"))] []
        ("users.json") (Json.arr []) = .error e ∧
      (errorHandler e).status = 500) ∧
    fsReadJSONF [(("users.json"), ("connection refused"))] []
        ("users.json") (Json.arr []) = (Json.arr [], []) :=
  storage_failure_surfacing [(("users.json"), ("connection refused"))] []
    ("users.json") (Json.arr []) ("connection refused") rfl

/-! ### Guild-binding upsert (claim and register paths) -/

/-- Embeds `x || d` on an optional string yielding a string. -/
def strOr (o : Option String) (d : String) : String :=
  match o with
  | some s => if s == "" then d else s
  | none => d

/-- Replace the first element satisfying `p` by its image under `f` — the JS
pattern of mutating the object returned by `Array.prototype.find` in place. -/
def updateFirst (l : List α) (p : α → Bool) (f : α → α) : List α :=
  match l with
  | [] => []
  | a :: rest => if p a then f a :: rest else a :: updateFirst rest p f

theorem find?_append_none {l₁ l₂ : List α} {p : α → Bool}
    (h : l₁.find? p = none) : (l₁ ++ l₂).find? p = l₂.find? p := by
  induction l₁ with
  | nil => simp
  | cons a l ih =>
    cases hp : p a with
    | true => simp [List.find?_cons, hp] at h
    | false =>
      simp only [List.find?_cons, hp] at h
      simp only [List.cons_append, List.find?_cons, hp]
      exact ih h

theorem updateFirst_append_none {l₁ l₂ : List α} {p : α → Bool} (f : α → α)
    (h : l₁.find? p = none) :
    updateFirst (l₁ ++ l₂) p f = l₁ ++ updateFirst l₂ p f := by
  induction l₁ with
  | nil => simp
  | cons a l ih =>
    cases hp : p a with
    | true => simp [List.find?_cons, hp] at h
    | false =>
      simp only [List.find?_cons, hp] at h
      simp [updateFirst, hp, ih h]

theorem filter_eq_nil_of_find?_none {l : List α} {p : α → Bool}
    (h : l.find? p = none) : l.filter p = [] := by
  induction l with
  | nil => simp
  | cons a l ih =>
    cases hp : p a with
    | true => simp [List.find?_cons, hp] at h
    | false =>
      simp only [List.find?_cons, hp] at h
      simp [List.filter, hp, ih h]

theorem find?_updateFirst_self {l : List α} {p : α → Bool} {a : α}
    (f : α → α) (h : l.find? p = some a) (hf : p (f a) = true) :
    (updateFirst l p f).find? p = some (f a) := by
  induction l with
  | nil => simp at h
  | cons b l ih =>
    cases hp : p b with
    | true =>
      simp only [List.find?_cons, hp] at h
      cases h
      simp [updateFirst, hp, List.find?_cons, hf]
    | false =>
      simp only [List.find?_cons, hp] at h
      simp [updateFirst, hp, List.find?_cons, ih h]


/-- The binding object created when a guild is registered/claimed and no
binding exists yet:
`{ guildId, botId, name: name || "Guild", icon: icon || null, lastSeen: Date.now() }`
(the same literal in the claim path and the bot-register path). -/
def freshBinding (botId guildId : String) (name icon : Option String)
    (now : Nat) : Guild :=
  { guildId := guildId, botId := botId, name := strOr name ("Guild"),
    icon := orNullStr icon, lastSeen := now }

/-- In-place mutation of an existing binding on the claim path:
`g.botId = b.id; if (name) g.name = name; if (icon) g.icon = icon;
g.lastSeen = Date.now()`. -/
def claimUpdate (g0 : Guild) (botId : String) (name icon : Option String)
    (now : Nat) : Guild :=
  { g0 with
    botId := botId,
    name := (orNullStr name).getD g0.name,
    icon := (match orNullStr icon with
             | some s => some s
             | none => g0.icon),
    lastSeen := now }

/-- In-place mutation of an existing binding on the bot-register path:
`g.botId = req.bot.id; g.name = guildName || g.name; g.icon = icon || g.icon;
g.lastSeen = Date.now()`. -/
def registerUpdate (g0 : Guild) (botId : String) (guildName icon : Option String)
    (now : Nat) : Guild :=
  { g0 with
    botId := botId,
    name := strOr guildName g0.name,
    icon := (match orNullStr icon with
             | some s => some s
             | none => g0.icon),
    lastSeen := now }

/-- Upsert performed by `POST /api/me/guilds/claim` (after its auth checks):
insert a fresh binding when none exists, else mutate the found binding.
Returns the upserted record (echoed in the response) and the written guilds
document. -/
def claimGuildUpsert (guilds : List Guild) (botId guildId : String)
    (name icon : Option String) (now : Nat) : Guild × List Guild :=
  match guilds.find? (fun x => x.guildId == guildId) with
  | none =>
    let g := freshBinding botId guildId name icon now
    (g, guilds ++ [g])
  | some g0 =>
    let g := claimUpdate g0 botId name icon now
    (g, updateFirst guilds (fun x => x.guildId == guildId) (fun _ => g))

/-- Upsert performed by `POST /api/bot/register`: same insert, register-path
mutation on update. -/
def registerGuildUpsert (guilds : List Guild) (botId guildId : String)
    (guildName icon : Option String) (now : Nat) : Guild × List Guild :=
  match guilds.find? (fun x => x.guildId == guildId) with
  | none =>
    let g := freshBinding botId guildId guildName icon now
    (g, guilds ++ [g])
  | some g0 =>
    let g := registerUpdate g0 botId guildName icon now
    (g, updateFirst guilds (fun x => x.guildId == guildId) (fun _ => g))

theorem claimGuildUpsert_insert (guilds : List Guild) (botId gid : String)
    (name icon : Option String) (now : Nat)
    (habs : guilds.find? (fun x => x.guildId == gid) = none) :
    claimGuildUpsert guilds botId gid name icon now =
      (freshBinding botId gid name icon now,
       guilds ++ [freshBinding botId gid name icon now]) := by
  simp [claimGuildUpsert, habs]

theorem registerGuildUpsert_insert (guilds : List Guild) (botId gid : String)
    (guildName icon : Option String) (now : Nat)
    (habs : guilds.find? (fun x => x.guildId == gid) = none) :
    registerGuildUpsert guilds botId gid guildName icon now =
      (freshBinding botId gid guildName icon now,
       guilds ++ [freshBinding botId gid guildName icon now]) := by
  simp [registerGuildUpsert, habs]

theorem claimGuildUpsert_update (guilds : List Guild) (e : Guild)
    (botId gid : String) (name icon : Option String) (now : Nat)
    (habs : guilds.find? (fun x => x.guildId == gid) = none)
    (hkey : e.guildId = gid) :
    claimGuildUpsert (guilds ++ [e]) botId gid name icon now =
      (claimUpdate e botId name icon now,
       guilds ++ [claimUpdate e botId name icon now]) := by
  have hfind : (guilds ++ [e]).find? (fun x => x.guildId == gid) = some e := by
    rw [find?_append_none habs]
    simp [List.find?_cons, hkey]
  have hput : updateFirst (guilds ++ [e]) (fun x => x.guildId == gid)
      (fun _ => claimUpdate e botId name icon now) =
      guilds ++ [claimUpdate e botId name icon now] := by
    rw [updateFirst_append_none _ habs]
    simp [updateFirst, hkey]
  simp [claimGuildUpsert, hfind, hput]

theorem registerGuildUpsert_update (guilds : List Guild) (e : Guild)
    (botId gid : String) (guildName icon : Option String) (now : Nat)
    (habs : guilds.find? (fun x => x.guildId == gid) = none)
    (hkey : e.guildId = gid) :
    registerGuildUpsert (guilds ++ [e]) botId gid guildName icon now =
      (registerUpdate e botId guildName icon now,
       guilds ++ [registerUpdate e botId guildName icon now]) := by
  have hfind : (guilds ++ [e]).find? (fun x => x.guildId == gid) = some e := by
    rw [find?_append_none habs]
    simp [List.find?_cons, hkey]
  have hput : updateFirst (guilds ++ [e]) (fun x => x.guildId == gid)
      (fun _ => registerUpdate e botId guildName icon now) =
      guilds ++ [registerUpdate e botId guildName icon now] := by
    rw [updateFirst_append_none _ habs]
    simp [updateFirst, hkey]
  simp [registerGuildUpsert, hfind, hput]

/-- C6: on both the claim path and the register path, upserting the same
`{guildId, botId}` twice — the second call omitting `name` and `icon` —
leaves the guilds document equal to the original plus exactly one binding
for that guildId, whose `lastSeen` is the second call's timestamp and whose
`name`/`icon` are the ones set by the first call (`freshBinding` of the
first call's arguments with the refreshed timestamp). -/
theorem binding_upsert_idempotent (guilds : List Guild) (botId gid : String)
    (name icon : Option String) (t₁ t₂ : Nat)
    (habs : guilds.find? (fun x => x.guildId == gid) = none) :
    (claimGuildUpsert (claimGuildUpsert guilds botId gid name icon t₁).2
        botId gid none none t₂).2 =
      guilds ++ [freshBinding botId gid name icon t₂] ∧
    ((claimGuildUpsert (claimGuildUpsert guilds botId gid name icon t₁).2
        botId gid none none t₂).2.filter (fun x => x.guildId == gid)) =
      [freshBinding botId gid name icon t₂] ∧
    (registerGuildUpsert (registerGuildUpsert guilds botId gid name icon t₁).2
        botId gid none none t₂).2 =
      guilds ++ [freshBinding botId gid name icon t₂] ∧
    ((registerGuildUpsert (registerGuildUpsert guilds botId gid name icon t₁).2
        botId gid none none t₂).2.filter (fun x => x.guildId == gid)) =
      [freshBinding botId gid name icon t₂] := by
  have hfilter : guilds.filter (fun x => x.guildId == gid) = [] :=
    filter_eq_nil_of_find?_none habs
  have hcu : claimUpdate (freshBinding botId gid name icon t₁) botId none none t₂ =
      freshBinding botId gid name icon t₂ := by
    simp [claimUpdate, freshBinding, orNullStr]
  have hru : registerUpdate (freshBinding botId gid name icon t₁) botId none none t₂ =
      freshBinding botId gid name icon t₂ := by
    simp [registerUpdate, freshBinding, orNullStr, strOr]
  have hckey : (freshBinding botId gid name icon t₁).guildId = gid := rfl
  have hc2 : (claimGuildUpsert (claimGuildUpsert guilds botId gid name icon t₁).2
      botId gid none none t₂).2 = guilds ++ [freshBinding botId gid name icon t₂] := by
    rw [claimGuildUpsert_insert guilds botId gid name icon t₁ habs]
    rw [claimGuildUpsert_update guilds _ botId gid none none t₂ habs hckey, hcu]
  have hr2 : (registerGuildUpsert (registerGuildUpsert guilds botId gid name icon t₁).2
      botId gid none none t₂).2 = guilds ++ [freshBinding botId gid name icon t₂] := by
    rw [registerGuildUpsert_insert guilds botId gid name icon t₁ habs]
    rw [registerGuildUpsert_update guilds _ botId gid none none t₂ habs hckey, hru]
  have hfl : (guilds ++ [freshBinding botId gid name icon t₂]).filter
      (fun x => x.guildId == gid) = [freshBinding botId gid name icon t₂] := by
    simp [List.filter_append, hfilter, List.filter, freshBinding]
  exact ⟨hc2, by rw [hc2]; exact hfl, hr2, by rw [hr2]; exact hfl⟩

/-- C6 witness: concrete double upsert over a guilds document holding an
unrelated binding. -/
theorem binding_upsert_idempotent_witness :
    (claimGuildUpsert
        (claimGuildUpsert
          [{ guildId := ("other"), botId := ("b9"), name := ("Other"),
             icon := none, lastSeen := 1 }]
          ("b1") ("g1") (some ("My Guild")) (some ("icon.png")) 10).2
        ("b1") ("g1") none none 20).2 =
      [{ guildId := ("other"), botId := ("b9"), name := ("Other"),
         icon := none, lastSeen := 1 }] ++
        [freshBinding ("b1") ("g1") (some ("My Guild")) (some ("icon.png")) 20] ∧
    ((claimGuildUpsert
        (claimGuildUpsert
          [{ guildId := ("other"), botId := ("b9"), name := ("Other"),
             icon := none, lastSeen := 1 }]
          ("b1") ("g1") (some ("My Guild")) (some ("icon.png")) 10).2
        ("b1") ("g1") none none 20).2.filter (fun x => x.guildId == ("g1"))) =
      [freshBinding ("b1") ("g1") (some ("My Guild")) (some ("icon.png")) 20] ∧
    (registerGuildUpsert
        (registerGuildUpsert
          [{ guildId := ("other"), botId := ("b9"), name := ("Other"),
             icon := none, lastSeen := 1 }]
          ("b1") ("g1") (some ("My Guild")) (some ("icon.png")) 10).2
        ("b1") ("g1") none none 20).2 =
      [{ guildId := ("other"), botId := ("b9"), name := ("Other"),
         icon := none, lastSeen := 1 }] ++
        [freshBinding ("b1") ("g1") (some ("My Guild")) (some ("icon.png")) 20] ∧
    ((registerGuildUpsert
        (registerGuildUpsert
          [{ guildId := ("other"), botId := ("b9"), name := ("Other"),
             icon := none, lastSeen := 1 }]
          ("b1") ("g1") (some ("My Guild")) (some ("icon.png")) 10).2
        ("b1") ("g1") none none 20).2.filter (fun x => x.guildId == ("g1"))) =
      [freshBinding ("b1") ("g1") (some ("My Guild")) (some ("icon.png")) 20] :=
  binding_upsert_idempotent
    [{ guildId := ("other"), botId := ("b9"), name := ("Other"),
       icon := none, lastSeen := 1 }]
    ("b1") ("g1") (some ("My Guild")) (some ("icon.png")) 10 20 (by decide)

/-! ### `POST /api/me/guilds/claim` -/

/-- Outcome of the claim handler: 400, 404, 403 or `{ ok:true, guild:g }`. -/
inductive ClaimOutcome where
  | badRequest (error : String)
  | notFound (error : String)
  | forbidden (error : String)
  | ok (guild : Guild)
deriving Repr, DecidableEq

/-- The claim handler (identical logic in both variants): validate
`botId`/`guildId`, look up the bot, require the caller to be admin or the
bot's owner, then upsert the guild binding keyed by `guildId` — without any
check against a binding that may already exist for that guild. -/
def claimGuildHandler (bots : List Bot) (guilds : List Guild)
    (me : SessionUser) (botId guildId name icon : Option String)
    (now : Nat) : ClaimOutcome × List Guild :=
  match orNullStr botId, orNullStr guildId with
  | some bId, some gId =>
    (match bots.find? (fun x => x.id == bId) with
     | none => (.notFound ("bot no existe"), guilds)
     | some b =>
       if !me.isAdmin && !(b.ownerUserId == some me.uid) then
         (.forbidden ("no eres dueño de ese bot"), guilds)
       else
         let r := claimGuildUpsert guilds b.id gId name icon now
         (.ok r.1, r.2))
  | _, _ => (.badRequest ("botId y guildId requeridos"), guilds)

/-- C9: for an existing binding of guild `gid` to any bot `g0.botId` (owned
by anyone), a non-admin session user who owns some bot `b2` can claim `gid`
for `b2`: the handler succeeds and the binding for `gid` afterwards points to
`b2.id`.  No hypothesis about the previous binding's bot or its owner is
needed. -/
theorem claim_rebinds_existing_guild (bots : List Bot) (guilds : List Guild)
    (me : SessionUser) (b2 : Bot) (g0 : Guild) (gid : String)
    (name icon : Option String) (t : Nat)
    (hbid : b2.id ≠ "") (hgid : gid ≠ "")
    (hfind : bots.find? (fun x => x.id == b2.id) = some b2)
    (hadmin : me.isAdmin = false)
    (hown : b2.ownerUserId = some me.uid)
    (hg : guilds.find? (fun x => x.guildId == gid) = some g0) :
    ∃ g, (claimGuildHandler bots guilds me (some b2.id) (some gid) name icon t).1 =
        .ok g ∧
      g.botId = b2.id ∧
      ((claimGuildHandler bots guilds me (some b2.id) (some gid) name icon t).2.find?
        (fun x => x.guildId == gid)) = some g := by
  have hkey : (fun x => x.guildId == gid) (claimUpdate g0 b2.id name icon t) = true := by
    have : g0.guildId == gid := by
      simpa using List.find?_some hg
    simpa [claimUpdate] using this
  have hupd : (updateFirst guilds (fun x => x.guildId == gid)
      (fun _ => claimUpdate g0 b2.id name icon t)).find? (fun x => x.guildId == gid) =
      some (claimUpdate g0 b2.id name icon t) :=
    find?_updateFirst_self _ hg hkey
  refine ⟨claimUpdate g0 b2.id name icon t, ?_, rfl, ?_⟩ <;>
    simp [claimGuildHandler, orNullStr, hbid, hgid, hfind, hadmin, hown,
      claimGuildUpsert, hg, hupd]

/-- C9 witness: guild `g1` is bound to bot `b-old` owned by user `victim`;
the non-admin user `u2`, owner of bot `b-new`, claims `g1` for `b-new` and
the binding is rebound. -/
theorem claim_rebinds_existing_guild_witness :
    ∃ g, (claimGuildHandler
        [{ id := ("b-new"), name := ("Mine"), apiKey := ("k2"),
           ownerUserId := some ("u2"), discordAppId := none, token := none }]
        [{ guildId := ("g1"), botId := ("b-old"), name := ("Victim Guild"),
           icon := none, lastSeen := 0 }]
        { uid := ("u2"), username := ("mallory"), isAdmin := false }
        (some ("b-new")) (some ("g1")) none none 99).1 = .ok g ∧
      g.botId = ("b-new") ∧
      ((claimGuildHandler
        [{ id := ("b-new"), name := ("Mine"), apiKey := ("k2"),
           ownerUserId := some ("u2"), discordAppId := none, token := none }]
        [{ guildId := ("g1"), botId := ("b-old"), name := ("Victim Guild"),
           icon := none, lastSeen := 0 }]
        { uid := ("u2"), username := ("mallory"), isAdmin := false }
        (some ("b-new")) (some ("g1")) none none 99).2.find?
          (fun x => x.guildId == ("g1"))) = some g :=
  claim_rebinds_existing_guild
    [{ id := ("b-new"), name := ("Mine"), apiKey := ("k2"),
       ownerUserId := some ("u2"), discordAppId := none, token := none }]
    [{ guildId := ("g1"), botId := ("b-old"), name := ("Victim Guild"),
       icon := none, lastSeen := 0 }]
    { uid := ("u2"), username := ("mallory"), isAdmin := false }
    { id := ("b-new"), name := ("Mine"), apiKey := ("k2"),
      ownerUserId := some ("u2"), discordAppId := none, token := none }
    { guildId := ("g1"), botId := ("b-old"), name := ("Victim Guild"),
      icon := none, lastSeen := 0 }
    ("g1") none none 99 (by decide) (by decide) (by decide) rfl rfl (by decide)

end BotBackend
